import Mathlib

/-!
# Verification of the pomodoro-tracking dashboard (`src/app.py`)

A shallow embedding of the pagination, aggregation and record-store logic
of the single-file Streamlit application.  The database table `pomodoros`
is modelled as a list of records in insertion order; SQL statements become
pure list operations; the query-parameter dictionary entry `page` becomes
an `Option String`.

Key embedding detail: the application reads `dict(st.query_params)`, whose
values are plain strings, yet indexes `qp["page"][0]` — so only the first
character of the `page` query parameter is ever parsed by `int(...)`.
Digits are modelled as ASCII digits.
-/

namespace Track10k

/-- A row of the `pomodoros` table: `(id, description, timestamp)`.
Timestamps are modelled as integer seconds. -/
structure PomodoroRecord where
  id : Nat
  description : String
  timestamp : Int
deriving Repr, DecidableEq

/-- `PAGE_SIZE = 100` (line 12 and line 151 of `app.py`). -/
def PAGE_SIZE : Nat := 100

/-- `add_pomodoro(description)` (lines 40–48): inserts a new row with the
given description and the current timestamp.  The SERIAL primary key
assigns the next id; the table gains the row at the end. -/
def add_pomodoro (store : List PomodoroRecord) (nextId : Nat) (now : Int)
    (description : String) : List PomodoroRecord :=
  store ++ [⟨nextId, description, now⟩]

/-- `remove_pomodoro(pomo_id)` (lines 50–57): `DELETE FROM pomodoros WHERE id = %s`. -/
def remove_pomodoro (store : List PomodoroRecord) (pomo_id : Nat) :
    List PomodoroRecord :=
  store.filter (fun r => r.id ≠ pomo_id)

/-- `get_all_pomodoros()` (lines 59–67): `SELECT id, description, timestamp
FROM pomodoros ORDER BY id ASC`.  The store list is kept in insertion
order, which under SERIAL id assignment is ascending-id order. -/
def get_all_pomodoros (store : List PomodoroRecord) : List PomodoroRecord :=
  store

/-- `get_total_pomodoros()` (lines 69–77): `SELECT COUNT(*) FROM pomodoros`. -/
def get_total_pomodoros (store : List PomodoroRecord) : Nat :=
  store.length

/-- One step of selecting the row with the greatest id, realising
`ORDER BY id DESC LIMIT 1` as a scan for the maximal id. -/
def max_by_id_step (acc : Option PomodoroRecord) (r : PomodoroRecord) :
    Option PomodoroRecord :=
  match acc with
  | none => some r
  | some m => if m.id < r.id then some r else some m

/-- `get_last_description()` (lines 79–87): `SELECT description FROM
pomodoros ORDER BY id DESC LIMIT 1`, then `row[0] if row else ""`.
The row selected is the one with the greatest id (ids are unique). -/
def get_last_description (store : List PomodoroRecord) : String :=
  match store.foldl max_by_id_step none with
  | some r => r.description
  | none => ""

/-- `count_pomodoros_since(days)` (lines 89–103): computes
`cutoff = datetime.now() - timedelta(days=days)` (i.e. `now - days*86400`
seconds), selects every timestamp, and counts those with `ts >= cutoff`. -/
def count_pomodoros_since (store : List PomodoroRecord) (now : Int)
    (days : Nat) : Nat :=
  (store.filter (fun r => now - (days : Int) * 86400 ≤ r.timestamp)).length

/-- `total_pages = math.ceil(total_completed / PAGE_SIZE)` (line 152),
as exact ceiling division on naturals. -/
def total_pages (total : Nat) : Nat :=
  (total + PAGE_SIZE - 1) / PAGE_SIZE

/-- The attempted `int(qp["page"][0])` (line 160): `qp["page"]` is a string,
so `[0]` is its first character; `int` of a one-character string succeeds
exactly on a digit (modelled as ASCII digits), yielding its value.  An
empty string (IndexError) or a non-digit first character (ValueError)
lands in the bare `except` branch, modelled as `none`. -/
def parse_page_param (s : String) : Option Nat :=
  match s.data with
  | [] => none
  | c :: _ => if c.isDigit then some (c.toNat - '0'.toNat) else none

/-- `current_page` computation (lines 154–166): no `page` key, or a failed
parse, defaults to `total_pages`; a parsed value `< 1` becomes `1`; a
parsed value `> total_pages` becomes `total_pages`. -/
def current_page (pageParam : Option String) (tp : Nat) : Nat :=
  match pageParam with
  | none => tp
  | some s =>
    match parse_page_param s with
    | none => tp
    | some n => if n < 1 then 1 else if n > tp then tp else n

/-- `page_data = df.iloc[start_index:end_index]` (lines 169–171) with
`start_index = (current_page - 1) * PAGE_SIZE` and
`end_index = start_index + PAGE_SIZE`; Python slicing clamps to the
available rows. -/
def page_data (l : List PomodoroRecord) (page : Nat) : List PomodoroRecord :=
  (l.drop ((page - 1) * PAGE_SIZE)).take PAGE_SIZE

/-- Outcome of one render of the main table area (lines 144–171): either
the empty-store notice (`st.info` + `st.stop()`), or a page view carrying
`total_pages`, `current_page` and the sliced rows. -/
inductive RenderResult where
  | empty : RenderResult
  | pageView (tp cur : Nat) (rows : List PomodoroRecord) : RenderResult
deriving Repr, DecidableEq

/-- The render pipeline for the table (lines 138–171): fetch all rows; if
`total_completed == 0`, show the info box and stop before any pagination
arithmetic; otherwise compute `total_pages`, `current_page` and the slice. -/
def render (store : List PomodoroRecord) (pageParam : Option String) :
    RenderResult :=
  let rows := get_all_pomodoros store
  if rows.length = 0 then
    RenderResult.empty
  else
    let tp := total_pages rows.length
    let cur := current_page pageParam tp
    RenderResult.pageView tp cur (page_data rows cur)

/-- Python whitespace characters stripped by `str.strip()` (ASCII range). -/
def is_py_space (c : Char) : Bool :=
  c = ' ' || c = '\t' || c = '\n' || c = '\x0d' || c = '\x0b' || c = '\x0c'

/-- Python `s.strip()`: drop leading and trailing whitespace. -/
def py_strip (s : String) : String :=
  String.mk
    (((s.data.dropWhile is_py_space).reverse.dropWhile is_py_space).reverse)

/-- The add-form handler (lines 114–123): `if desc_input.strip():` take the
truthy branch and call `add_pomodoro(desc_input)` — the raw, unstripped
input — reporting success; else report the inline error and leave the
store untouched.  Returns the new store and the error message, if any. -/
def submit_form (store : List PomodoroRecord) (nextId : Nat) (now : Int)
    (desc_input : String) : List PomodoroRecord × Option String :=
  if py_strip desc_input ≠ "" then
    (add_pomodoro store nextId now desc_input, none)
  else
    (store, some "Please enter a description.")

/-- The options of the jump-to-page selectbox (line 213):
`list(range(1, total_pages + 1))`. -/
def jump_options (tp : Nat) : List Nat :=
  List.range' 1 tp

/-- A user action on the pagination controls (lines 200–226). -/
inductive NavAction where
  | previous : NavAction
  | next : NavAction
  | jump (p : Nat) : NavAction
deriving Repr, DecidableEq

/-- The navigation step (lines 200–226): "Previous" is rendered only when
`current_page > 1` and sets `page = current_page - 1`; "Next" only when
`current_page < total_pages` and sets `page = current_page + 1`; the
selectbox writes `page = selected_page` only for a selection drawn from
`jump_options` that differs from the current page. -/
def nav_step (tp cur : Nat) : NavAction → Nat
  | NavAction.previous => if 1 < cur then cur - 1 else cur
  | NavAction.next => if cur < tp then cur + 1 else cur
  | NavAction.jump p => if p ∈ jump_options tp ∧ p ≠ cur then p else cur

/-! ## Theorems -/

/-- C1 evidence: at the failing input `page = "25"` with `total_pages = 3`
(250 records), the code displays page 2, not the clamped page 3, and at
`page = "-3"` it displays page 3, not the clamped page 1 — because
`int(qp["page"][0])` parses only the first character of the query string,
contradicting the code's own comment that query-parameter values are
lists. -/
theorem page_request_first_char_divergence :
    current_page (some "25") 3 = 2 ∧ current_page (some "25") 3 ≠ 3
    ∧ current_page (some "-3") 3 = 3 ∧ current_page (some "-3") 3 ≠ 1 := by
  decide

/-- C2: the program parses only the first character of the `page` query
string: when it is a digit `d` the displayed page is `d` clamped to
`[1, total_pages]`; when it is not a digit (including `"-3"`) the parse
fails and the displayed page is `total_pages`; in particular `"25"` with
`total_pages = 3` displays page 2 and `"-3"` displays page 3. -/
theorem page_param_first_char_only (tp : Nat) (htp : 1 ≤ tp) :
    (∀ (c : Char) (rest : List Char), c.isDigit = true →
        current_page (some (String.mk (c :: rest))) tp
          = min (max (c.toNat - '0'.toNat) 1) tp)
    ∧ (∀ (c : Char) (rest : List Char), c.isDigit = false →
        current_page (some (String.mk (c :: rest))) tp = tp)
    ∧ current_page (some "25") 3 = 2
    ∧ current_page (some "-3") 3 = 3 := by
  refine ⟨?_, ?_, by decide, by decide⟩
  · intro c rest h
    have hp : parse_page_param (String.mk (c :: rest))
        = some (c.toNat - '0'.toNat) := by
      simp [parse_page_param, h]
    simp only [current_page, hp]
    rw [Nat.max_def, Nat.min_def]
    split_ifs <;> omega
  · intro c rest h
    have hp : parse_page_param (String.mk (c :: rest)) = none := by
      simp [parse_page_param, h]
    simp [current_page, hp]

/-- Witness for C2 at `tp = 3`, string `"25"`. -/
theorem page_param_first_char_only_witness :
    current_page (some (String.mk ['2', '5'])) 3
      = min (max ('2'.toNat - '0'.toNat) 1) 3 :=
  (page_param_first_char_only 3 (by norm_num)).1 '2' ['5'] (by decide)

/-- C5: with no `page` query parameter, the displayed page is the last
page, and `total_pages` is exactly `ceil(total / PAGE_SIZE)` (it is the
least `q` with `total ≤ q * PAGE_SIZE`, and is at least 1). -/
theorem default_page_is_last_page (total : Nat) (h : 1 ≤ total) :
    current_page none (total_pages total) = total_pages total
    ∧ 1 ≤ total_pages total
    ∧ PAGE_SIZE * (total_pages total - 1) < total
    ∧ total ≤ PAGE_SIZE * total_pages total := by
  refine ⟨rfl, ?_, ?_, ?_⟩ <;> simp only [total_pages, PAGE_SIZE] <;> omega

/-- Witness for C5 at `total = 250`. -/
theorem default_page_is_last_page_witness :
    current_page none (total_pages 250) = total_pages 250 :=
  (default_page_is_last_page 250 (by norm_num)).1

/-- C6: when the store holds no records, the render pipeline stops at the
empty-state notice: the result is `RenderResult.empty`, carrying no
`total_pages`, no current page and no slice, and no pagination arithmetic
(in particular no division) is reached. -/
theorem empty_store_reports_empty (store : List PomodoroRecord)
    (pageParam : Option String) (h : get_total_pomodoros store = 0) :
    render store pageParam = RenderResult.empty := by
  simp only [get_total_pomodoros] at h
  simp [render, get_all_pomodoros, h]

/-- Witness for C6 at the empty store. -/
theorem empty_store_reports_empty_witness :
    render [] none = RenderResult.empty :=
  empty_store_reports_empty [] none rfl

/-- C3: `count_pomodoros_since` counts exactly the records whose timestamp
is at least `now - days*86400`, as a pure filter over the stored
timestamps; and on a store with timestamps `[t-10d, t-5d, t-1d]` the
7-day window (cutoff `t - 7d`) counts exactly 2. -/
theorem count_since_spec :
    (∀ (store : List PomodoroRecord) (now : Int) (days : Nat),
        count_pomodoros_since store now days
          = (store.map (fun r => r.timestamp)).countP
              (fun ts => now - (days : Int) * 86400 ≤ ts))
    ∧ ∀ (t : Int) (i₁ i₂ i₃ : Nat) (d₁ d₂ d₃ : String),
        count_pomodoros_since
          [⟨i₁, d₁, t - 10 * 86400⟩, ⟨i₂, d₂, t - 5 * 86400⟩,
           ⟨i₃, d₃, t - 1 * 86400⟩] t 7 = 2 := by
  constructor
  · intro store now days
    simp only [count_pomodoros_since, List.countP_eq_length_filter,
      List.filter_map, List.length_map]
    rfl
  · intro t i₁ i₂ i₃ d₁ d₂ d₃
    have e1 : decide (t - ((7 : Nat) : Int) * 86400 ≤ t - 10 * 86400)
        = false := by
      rw [decide_eq_false_iff_not]
      push_cast
      omega
    have e2 : decide (t - ((7 : Nat) : Int) * 86400 ≤ t - 5 * 86400)
        = true := by
      rw [decide_eq_true_eq]
      push_cast
      omega
    have e3 : decide (t - ((7 : Nat) : Int) * 86400 ≤ t - 1 * 86400)
        = true := by
      rw [decide_eq_true_eq]
      push_cast
      omega
    simp only [count_pomodoros_since, List.filter_cons, List.filter_nil,
      e1, e2, e3, Bool.false_eq_true, if_false, if_true, ite_true,
      ite_false, List.length_cons, List.length_nil]

/-- C4: for any valid page `1 ≤ page ≤ total_pages`, the slice shown is
exactly the elements of the ascending row list at 0-based indices
`[(page-1)*PAGE_SIZE, page*PAGE_SIZE)`: its length is
`min PAGE_SIZE (total - (page-1)*PAGE_SIZE)` (the final page may be
partial but is never empty) and its `i`-th entry is the row at index
`(page-1)*PAGE_SIZE + i`; in particular for 250 records `total_pages = 3`
and page 3 holds 50 rows. -/
theorem page_slice_spec (l : List PomodoroRecord) (page : Nat)
    (h1 : 1 ≤ page) (h2 : page ≤ total_pages l.length) :
    (page_data l page).length
        = min PAGE_SIZE (l.length - (page - 1) * PAGE_SIZE)
    ∧ 1 ≤ (page_data l page).length
    ∧ (∀ i, i < PAGE_SIZE →
        (page_data l page)[i]? = l[(page - 1) * PAGE_SIZE + i]?)
    ∧ total_pages 250 = 3
    ∧ ∀ r : PomodoroRecord,
        (page_data (List.replicate 250 r) 3).length = 50 := by
  have hlen : (page_data l page).length
      = min PAGE_SIZE (l.length - (page - 1) * PAGE_SIZE) := by
    simp [page_data, List.length_take, List.length_drop]
  have hpos : (page - 1) * PAGE_SIZE < l.length := by
    simp only [total_pages, PAGE_SIZE] at h2 ⊢
    omega
  refine ⟨hlen, ?_, ?_, ?_, ?_⟩
  · rw [hlen, le_min_iff]
    constructor
    · norm_num [PAGE_SIZE]
    · omega
  · intro i hi
    simp [page_data, List.getElem?_take, List.getElem?_drop, hi]
  · norm_num [total_pages, PAGE_SIZE]
  · intro r
    simp only [page_data, PAGE_SIZE, List.length_take, List.length_drop,
      List.length_replicate]
    norm_num

/-- Witness for C4 at a 250-row store, page 3. -/
theorem page_slice_spec_witness :
    1 ≤ (page_data
        (List.replicate 250 (⟨1, "w", 0⟩ : PomodoroRecord)) 3).length :=
  (page_slice_spec (List.replicate 250 ⟨1, "w", 0⟩) 3 (by norm_num)
    (by norm_num [total_pages, PAGE_SIZE])).2.1

/-- Scanning a list with `max_by_id_step` from `some m` yields an element
of `m :: l` whose id dominates every id in `m :: l`. -/
theorem foldl_max_by_id (l : List PomodoroRecord) :
    ∀ m : PomodoroRecord, ∃ x, l.foldl max_by_id_step (some m) = some x
      ∧ (x = m ∨ x ∈ l) ∧ m.id ≤ x.id ∧ ∀ y ∈ l, y.id ≤ x.id := by
  induction l with
  | nil =>
    intro m
    exact ⟨m, rfl, Or.inl rfl, le_refl _, by simp⟩
  | cons r t ih =>
    intro m
    by_cases h : m.id < r.id
    · obtain ⟨x, hfold, hmem, hge, hall⟩ := ih r
      refine ⟨x, ?_, ?_, ?_, ?_⟩
      · rw [List.foldl_cons]
        have hstep : max_by_id_step (some m) r = some r := by
          simp [max_by_id_step, h]
        rw [hstep]
        exact hfold
      · rcases hmem with h1 | h1
        · exact Or.inr (by simp [h1])
        · exact Or.inr (List.mem_cons_of_mem _ h1)
      · exact le_trans (le_of_lt h) hge
      · intro y hy
        rcases List.mem_cons.mp hy with h2 | h2
        · subst h2
          exact hge
        · exact hall y h2
    · obtain ⟨x, hfold, hmem, hge, hall⟩ := ih m
      refine ⟨x, ?_, ?_, ?_, ?_⟩
      · rw [List.foldl_cons]
        have hstep : max_by_id_step (some m) r = some m := by
          simp [max_by_id_step, h]
        rw [hstep]
        exact hfold
      · rcases hmem with h1 | h1
        · exact Or.inl h1
        · exact Or.inr (List.mem_cons_of_mem _ h1)
      · exact hge
      · intro y hy
        rcases List.mem_cons.mp hy with h2 | h2
        · subst h2
          exact le_trans (Nat.le_of_not_lt h) hge
        · exact hall y h2

/-- C7: `get_last_description` returns `""` on the empty store, and on any
store whose ids are dominated by a unique maximal record `r` it returns
exactly `r`'s description. -/
theorem last_description_is_max_id :
    get_last_description [] = ""
    ∧ ∀ (store : List PomodoroRecord) (r : PomodoroRecord), r ∈ store →
        (∀ s ∈ store, s ≠ r → s.id < r.id) →
        get_last_description store = r.description := by
  refine ⟨rfl, ?_⟩
  intro store r hr hmax
  cases store with
  | nil => exact absurd hr (List.not_mem_nil r)
  | cons a t =>
    obtain ⟨x, hfold, hmem, hge, hall⟩ := foldl_max_by_id t a
    have hxmem : x ∈ a :: t := by
      rcases hmem with h | h
      · simp [h]
      · exact List.mem_cons_of_mem _ h
    have hrx : r.id ≤ x.id := by
      rcases List.mem_cons.mp hr with h | h
      · subst h
        exact hge
      · exact hall r h
    have hxr : x = r := by
      by_cases hxr' : x = r
      · exact hxr'
      · exact absurd hrx (Nat.not_le.mpr (hmax x hxmem hxr'))
    have hfold' : (a :: t).foldl max_by_id_step none = some x := by
      rw [List.foldl_cons]
      exact hfold
    simp [get_last_description, hfold', hxr]

/-- Witness for C7: the maximal id 3 sits in the middle of the list. -/
theorem last_description_is_max_id_witness :
    get_last_description
      [⟨1, "alpha", 0⟩, ⟨3, "gamma", 5⟩, ⟨2, "beta", 3⟩] = "gamma" :=
  last_description_is_max_id.2 _ ⟨3, "gamma", 5⟩ (by decide) (by decide)

/-- C8: a submission whose description strips to empty is rejected with
the inline error and the store is unchanged; any other submission invokes
`add_pomodoro` exactly once, with that description, and reports no
error. -/
theorem submit_form_validation (store : List PomodoroRecord) (nextId : Nat)
    (now : Int) (s : String) :
    (py_strip s = "" →
        submit_form store nextId now s
          = (store, some "Please enter a description."))
    ∧ (py_strip s ≠ "" →
        submit_form store nextId now s
          = (add_pomodoro store nextId now s, none)) := by
  constructor <;> intro h <;> simp [submit_form, h]

/-- Witness for C8: a whitespace-only and a non-blank submission. -/
theorem submit_form_validation_witness :
    submit_form [] 7 0 " \t " = ([], some "Please enter a description.")
    ∧ submit_form [] 7 0 "hi" = (add_pomodoro [] 7 0 "hi", none) :=
  ⟨(submit_form_validation [] 7 0 " \t ").1 (by decide),
   (submit_form_validation [] 7 0 "hi").2 (by decide)⟩

/-- C9: from any page in `[1, total_pages]`, every navigation action lands
in `[1, total_pages]`; "Previous" is a no-op on page 1, "Next" is a no-op
on the last page, and the jump selectbox offers exactly the pages in
`[1, total_pages]`. -/
theorem nav_controls_stay_in_range (tp cur : Nat) (h1 : 1 ≤ cur)
    (h2 : cur ≤ tp) :
    (∀ a : NavAction, 1 ≤ nav_step tp cur a ∧ nav_step tp cur a ≤ tp)
    ∧ nav_step tp 1 NavAction.previous = 1
    ∧ nav_step tp tp NavAction.next = tp
    ∧ (∀ p : Nat, p ∈ jump_options tp ↔ 1 ≤ p ∧ p ≤ tp) := by
  have hopt : ∀ p : Nat, p ∈ jump_options tp ↔ 1 ≤ p ∧ p ≤ tp := by
    intro p
    unfold jump_options
    rw [List.mem_range']
    constructor
    · rintro ⟨i, hi, rfl⟩
      omega
    · intro hp
      exact ⟨p - 1, by omega, by omega⟩
  refine ⟨?_, ?_, ?_, hopt⟩
  · intro a
    cases a with
    | previous =>
      simp only [nav_step]
      split_ifs <;> omega
    | next =>
      simp only [nav_step]
      split_ifs <;> omega
    | jump p =>
      simp only [nav_step]
      split_ifs with hmem
      · have := (hopt p).mp hmem.1
        omega
      · omega
  · simp [nav_step]
  · simp [nav_step]

/-- Witness for C9 at `total_pages = 3`, current page 2. -/
theorem nav_controls_stay_in_range_witness :
    1 ≤ nav_step 3 2 NavAction.next ∧ nav_step 3 2 NavAction.next ≤ 3 :=
  (nav_controls_stay_in_range 3 2 (by norm_num) (by norm_num)).1
    NavAction.next

/-- C10: a submission that passes the whitespace check is persisted with
the raw, untrimmed input as its description: the store gains exactly one
record and its description equals the input character for character. -/
theorem stored_description_is_raw_input (store : List PomodoroRecord)
    (nextId : Nat) (now : Int) (s : String) (h : py_strip s ≠ "") :
    ∃ r : PomodoroRecord,
      (submit_form store nextId now s).1 = store ++ [r]
      ∧ r.description = s :=
  ⟨⟨nextId, s, now⟩, by simp [submit_form, add_pomodoro, h], rfl⟩

/-- Witness for C10: leading and trailing spaces survive. -/
theorem stored_description_is_raw_input_witness :
    ∃ r : PomodoroRecord,
      (submit_form [] 1 0 "  hi  ").1 = [] ++ [r]
      ∧ r.description = "  hi  " :=
  stored_description_is_raw_input [] 1 0 "  hi  " (by decide)

end Track10k
